import Mathlib

/-!
# Shader Studio FFmpeg session controller — verification

Shallow embedding of `src/src-tauri/src/lib.rs`: a single-session FFmpeg
recording controller exposing three commands (`start_ffmpeg_encode`,
`send_frame_rgba`, `stop_ffmpeg_encode`) over a mutex-guarded
`Option<FfmpegSession>` store.

The embedding is sequential (the mutex serializes the three operations, so
each command is a function of the store before the call). External effects —
binary download, process spawn, stdin acquisition, pipe writes, process
waiting — are modelled by environment records supplying the outcome the
operating system would return; the commands are pure functions of the store,
their arguments and that environment. Rust `u32` values are natural numbers;
`u32` multiplication wraps, which the embedding renders as `% 2 ^ 32` exactly
where the source performs the arithmetic. Errors are the `String` values the
Rust code builds.
-/

deriving instance DecidableEq for Except

namespace ShaderStudio

/-- The modulus of Rust's `u32` arithmetic. -/
def u32Mod : Nat := 2 ^ 32

/-- `struct FfmpegSession { child, stdin, width, height }` (lib.rs lines 8-13).
The process and pipe handles are opaque to the controller; they are modelled
as numeric identifiers. `width` and `height` are `u32` values. -/
structure FfmpegSession where
  child : Nat
  stdin : Nat
  width : Nat
  height : Nat
deriving DecidableEq, Repr

/-- `struct FfmpegState(Mutex<Option<FfmpegSession>>)` (lib.rs line 15):
the store holds at most one session. -/
abbrev FfmpegStore := Option FfmpegSession

/-- Outcomes of the external steps `start_ffmpeg_encode` performs:
`auto_download` (fails with the error's display string), `Command::spawn`
(fails with an OS error string, succeeds with a child process handle) and
`child.stdin.take()` (may yield no pipe handle). -/
structure StartEnv where
  downloadErr : Option String
  spawnResult : Except String Nat
  stdinResult : Option Nat
deriving DecidableEq, Repr

/-- What a call to `start_ffmpeg_encode` produces: the `Result<(), String>`,
the store after the call, and the argument vector handed to `Command::spawn`
(`none` when the call returned before attempting to spawn). -/
structure StartOutcome where
  result : Except String Unit
  store : FfmpegStore
  spawned : Option (List String)
deriving DecidableEq, Repr

/-- The codec-specific output arguments (lib.rs lines 41-61): `"prores"` and
`"ffv1"` select their profiles; every other selector falls through to the
`_` arm, the h264 default. -/
def codecArgs (codec : String) : List String :=
  match codec with
  | "prores" =>
      ["-c:v", "prores_ks",
       "-profile:v", "3",
       "-vendor", "apl0",
       "-pix_fmt", "yuv422p10le"]
  | "ffv1" =>
      ["-c:v", "ffv1",
       "-level", "3",
       "-coder", "1",
       "-context", "1",
       "-pix_fmt", "yuv420p"]
  | _ =>
      ["-c:v", "libx264",
       "-preset", "slow",
       "-crf", "18",
       "-pix_fmt", "yuv420p"]

/-- `format!("{}x{}", width, height)` (lib.rs line 64). -/
def sizeStr (width height : Nat) : String :=
  toString width ++ "x" ++ toString height

/-- The full argument vector built for FFmpeg (lib.rs lines 66-78): input
declaration, codec profile, faststart flag, destination path. -/
def buildArgs (output_path : String) (width height fps : Nat) (codec : String) :
    List String :=
  ["-y",
   "-f", "rawvideo",
   "-vcodec", "rawvideo",
   "-pix_fmt", "rgba",
   "-s", sizeStr width height,
   "-r", toString fps,
   "-i", "pipe:0"]
  ++ codecArgs codec
  ++ ["-movflags", "+faststart"]
  ++ [output_path]

/-- `start_ffmpeg_encode` (lib.rs lines 22-88). Under the lock: reject if a
session is installed; download the binary; build the argument vector; spawn;
take stdin; install the new session. Every early return leaves the store as
it was. -/
def start_ffmpeg_encode (env : StartEnv) (store : FfmpegStore)
    (output_path : String) (width height fps : Nat) (codec : String) :
    StartOutcome :=
  match store with
  | some s => ⟨Except.error "FFmpeg session already active", some s, none⟩
  | none =>
    match env.downloadErr with
    | some e => ⟨Except.error e, none, none⟩
    | none =>
      let args := buildArgs output_path width height fps codec
      match env.spawnResult with
      | Except.error e =>
          ⟨Except.error ("Failed to spawn FFmpeg: " ++ e), none, some args⟩
      | Except.ok child =>
        match env.stdinResult with
        | none => ⟨Except.error "Failed to get FFmpeg stdin", none, some args⟩
        | some stdin =>
            ⟨Except.ok (), some ⟨child, stdin, width, height⟩, some args⟩

/-- The expected frame byte count (lib.rs line 99):
`(session.width * session.height * 4) as usize`, computed in `u32`
arithmetic, so each multiplication wraps modulo `2 ^ 32`; the cast to the
64-bit `usize` is then exact. -/
def expectedFrameSize (s : FfmpegSession) : Nat :=
  s.width * s.height % u32Mod * 4 % u32Mod

/-- Outcome of `write_all` on the session's stdin pipe: `none` means the
whole buffer was flushed; `some msg` means the OS reported an I/O error with
display string `msg` after accepting `bytesBeforeErr` bytes. -/
structure WriteEnv where
  writeErr : Option String
  bytesBeforeErr : Nat
deriving DecidableEq, Repr

/-- What a call to `send_frame_rgba` produces: the `Result<(), String>`, the
store after the call, and the bytes that reached the pipe during the call. -/
structure SendOutcome where
  result : Except String Unit
  store : FfmpegStore
  written : List Nat
deriving DecidableEq, Repr

/-- `send_frame_rgba` (lib.rs lines 92-109). Under the lock: reject if no
session; reject a buffer whose length differs from the expected frame size
before any I/O; otherwise `write_all` the buffer to the pipe. The session is
read, never replaced or mutated. -/
def send_frame_rgba (env : WriteEnv) (store : FfmpegStore) (data : List Nat) :
    SendOutcome :=
  match store with
  | none => ⟨Except.error "No active FFmpeg session", none, []⟩
  | some s =>
    if data.length ≠ expectedFrameSize s then
      ⟨Except.error ("Frame size mismatch: got " ++ toString data.length
          ++ " bytes, expected " ++ toString (expectedFrameSize s)),
       some s, []⟩
    else
      match env.writeErr with
      | some msg =>
          ⟨Except.error ("FFmpeg stdin write error: " ++ msg),
           some s, data.take env.bytesBeforeErr⟩
      | none => ⟨Except.ok (), some s, data⟩

/-- Outcome of `child.wait_with_output()`: either the OS fails to report
completion (error display string), or the process exits with
`status.code()` — `some c` for a normal exit with code `c`, `none` when the
process was terminated by a signal. -/
structure StopEnv where
  waitResult : Except String (Option Int)
deriving DecidableEq, Repr

/-- `ExitStatus::success()`: the status is success exactly when the exit
code is `0`. -/
def statusSuccess (code : Option Int) : Bool :=
  code = some 0

/-- `format!("{:?}", status.status.code())` on an `Option<i32>`. -/
def fmtExitCode (code : Option Int) : String :=
  match code with
  | some c => "Some(" ++ toString c ++ ")"
  | none => "None"

/-- `stop_ffmpeg_encode` (lib.rs lines 113-127). Under the lock:
`guard.take()` removes the session from the store before any teardown, so
every branch below — wait error, non-zero exit, clean exit — leaves the
store empty. -/
def stop_ffmpeg_encode (env : StopEnv) (store : FfmpegStore) :
    Except String Unit × FfmpegStore :=
  match store with
  | none => (Except.error "No active FFmpeg session", none)
  | some _ =>
    match env.waitResult with
    | Except.error e => (Except.error ("FFmpeg wait error: " ++ e), none)
    | Except.ok code =>
      if statusSuccess code then (Except.ok (), none)
      else (Except.error ("FFmpeg exited with code " ++ fmtExitCode code), none)

/-! ## Helper lemmas shared across the claims -/

/-- `stop` on an installed session leaves the store empty on every path:
wait error, non-zero exit, or clean exit. -/
theorem stop_some_store (env : StopEnv) (s : FfmpegSession) :
    (stop_ffmpeg_encode env (some s)).2 = none := by
  obtain ⟨wr⟩ := env
  cases wr with
  | error e => rfl
  | ok code =>
    by_cases hc : statusSuccess code
    · simp [stop_ffmpeg_encode, hc]
    · simp [stop_ffmpeg_encode, hc]

/-- `send` on an installed session leaves that very session in the store on
every path: size mismatch, write error, or success. -/
theorem send_some_store (env : WriteEnv) (s : FfmpegSession) (data : List Nat) :
    (send_frame_rgba env (some s) data).store = some s := by
  obtain ⟨we, nb⟩ := env
  by_cases hlen : data.length = expectedFrameSize s
  · cases we with
    | some msg => simp [send_frame_rgba, hlen]
    | none => simp [send_frame_rgba, hlen]
  · simp [send_frame_rgba, hlen]

/-! ## Claims -/

/-- C1: `stop` on any active session removes it unconditionally — the slot
is emptied before teardown, so even when the wait fails or the exit status
is non-zero the store ends empty; an immediate second `stop` reports
"No active FFmpeg session", and a fresh `start` (working download, spawn and
stdin) is permitted and succeeds. -/
theorem stop_always_clears_store (s : FfmpegSession) (env env2 : StopEnv)
    (p c : String) (w h f child pipe : Nat) :
    (stop_ffmpeg_encode env (some s)).2 = none ∧
    (stop_ffmpeg_encode env2 (stop_ffmpeg_encode env (some s)).2).1
      = Except.error "No active FFmpeg session" ∧
    (start_ffmpeg_encode ⟨none, Except.ok child, some pipe⟩
        (stop_ffmpeg_encode env (some s)).2 p w h f c).result
      = Except.ok () := by
  have hst := stop_some_store env s
  refine ⟨hst, ?_, ?_⟩ <;> rw [hst] <;> rfl

/-- C5: at most one session exists: after a successful `start`, a second
`start` with no intervening `stop` fails with "FFmpeg session already
active", leaves the installed session unchanged in the store, and never
reaches a spawn. -/
theorem second_start_already_active (env1 env2 : StartEnv)
    (p1 p2 c1 c2 : String) (w1 ht1 f1 w2 ht2 f2 : Nat)
    (hok : (start_ffmpeg_encode env1 none p1 w1 ht1 f1 c1).result = Except.ok ()) :
    (start_ffmpeg_encode env2 (start_ffmpeg_encode env1 none p1 w1 ht1 f1 c1).store
        p2 w2 ht2 f2 c2).result = Except.error "FFmpeg session already active" ∧
    (start_ffmpeg_encode env2 (start_ffmpeg_encode env1 none p1 w1 ht1 f1 c1).store
        p2 w2 ht2 f2 c2).store
      = (start_ffmpeg_encode env1 none p1 w1 ht1 f1 c1).store ∧
    (start_ffmpeg_encode env2 (start_ffmpeg_encode env1 none p1 w1 ht1 f1 c1).store
        p2 w2 ht2 f2 c2).spawned = none := by
  obtain ⟨dl, sp, si⟩ := env1
  cases dl with
  | some e => exact absurd hok (by simp [start_ffmpeg_encode])
  | none =>
    cases sp with
    | error e => exact absurd hok (by simp [start_ffmpeg_encode])
    | ok child =>
      cases si with
      | none => exact absurd hok (by simp [start_ffmpeg_encode])
      | some stdin => exact ⟨rfl, rfl, rfl⟩

/-- C5 witness: a concrete successful first start, its second start
rejected. -/
theorem second_start_already_active_witness :
    (start_ffmpeg_encode ⟨none, Except.ok 1, some 2⟩ none "out.mp4" 64 64 30
        "h264").result = Except.ok () ∧
    ((start_ffmpeg_encode ⟨none, Except.ok 3, some 4⟩
        (start_ffmpeg_encode ⟨none, Except.ok 1, some 2⟩ none "out.mp4" 64 64 30
          "h264").store "b.mp4" 32 32 24 "ffv1").result
      = Except.error "FFmpeg session already active" ∧
    (start_ffmpeg_encode ⟨none, Except.ok 3, some 4⟩
        (start_ffmpeg_encode ⟨none, Except.ok 1, some 2⟩ none "out.mp4" 64 64 30
          "h264").store "b.mp4" 32 32 24 "ffv1").store
      = (start_ffmpeg_encode ⟨none, Except.ok 1, some 2⟩ none "out.mp4" 64 64 30
          "h264").store ∧
    (start_ffmpeg_encode ⟨none, Except.ok 3, some 4⟩
        (start_ffmpeg_encode ⟨none, Except.ok 1, some 2⟩ none "out.mp4" 64 64 30
          "h264").store "b.mp4" 32 32 24 "ffv1").spawned = none) :=
  ⟨rfl, second_start_already_active ⟨none, Except.ok 1, some 2⟩
      ⟨none, Except.ok 3, some 4⟩ "out.mp4" "b.mp4" "h264" "ffv1"
      64 64 30 32 32 24 rfl⟩

/-- C8: whenever no session is installed, `send` fails with
"No active FFmpeg session" and writes nothing, `stop` fails with the same
error, and both leave the store empty and otherwise unchanged. -/
theorem no_session_rejects (wenv : WriteEnv) (senv : StopEnv) (data : List Nat) :
    (send_frame_rgba wenv none data).result
      = Except.error "No active FFmpeg session" ∧
    (send_frame_rgba wenv none data).store = none ∧
    (send_frame_rgba wenv none data).written = [] ∧
    (stop_ffmpeg_encode senv none).1 = Except.error "No active FFmpeg session" ∧
    (stop_ffmpeg_encode senv none).2 = none :=
  ⟨rfl, rfl, rfl, rfl, rfl⟩

/-- C9: `send` never alters the session: on success, on a frame-size
mismatch, and on a pipe-write error alike, the very session that was
installed — same width, height, process handle and pipe handle — remains in
the store, so further frames or an explicit `stop` stay possible. -/
theorem send_never_alters_session (wenv : WriteEnv) (s : FfmpegSession)
    (data : List Nat) :
    (send_frame_rgba wenv (some s) data).store = some s :=
  send_some_store wenv s data

/-- C2: a buffer whose length differs from the session's expected frame
size makes `send` fail with a "Frame size mismatch" error reporting the
actual and expected byte counts, write nothing to the pipe, and leave the
session installed; a subsequent correctly-sized frame (with a working pipe)
is then accepted. -/
theorem send_size_mismatch (s : FfmpegSession) (env env2 : WriteEnv)
    (data data2 : List Nat)
    (hlen : data.length ≠ expectedFrameSize s)
    (hlen2 : data2.length = expectedFrameSize s)
    (henv2 : env2.writeErr = none) :
    (send_frame_rgba env (some s) data).result
      = Except.error ("Frame size mismatch: got " ++ toString data.length
          ++ " bytes, expected " ++ toString (expectedFrameSize s)) ∧
    (send_frame_rgba env (some s) data).written = [] ∧
    (send_frame_rgba env (some s) data).store = some s ∧
    (send_frame_rgba env2 (send_frame_rgba env (some s) data).store data2).result
      = Except.ok () := by
  have hA : send_frame_rgba env (some s) data
      = ⟨Except.error ("Frame size mismatch: got " ++ toString data.length
          ++ " bytes, expected " ++ toString (expectedFrameSize s)),
         some s, []⟩ := by
    simp only [send_frame_rgba]
    rw [if_pos hlen]
  have hB : (send_frame_rgba env2 (some s) data2).result = Except.ok () := by
    simp only [send_frame_rgba]
    rw [if_neg (not_not_intro hlen2), henv2]
  rw [hA]
  exact ⟨rfl, rfl, rfl, hB⟩

/-- C2 witness: a 1×1 session (expected 4 bytes), an empty buffer rejected,
then a 4-byte buffer accepted. -/
theorem send_size_mismatch_witness :
    ([] : List Nat).length ≠ expectedFrameSize ⟨1, 2, 1, 1⟩ ∧
    ([9, 9, 9, 9] : List Nat).length = expectedFrameSize ⟨1, 2, 1, 1⟩ ∧
    (⟨none, 0⟩ : WriteEnv).writeErr = none ∧
    ((send_frame_rgba ⟨none, 0⟩ (some ⟨1, 2, 1, 1⟩) []).result
      = Except.error ("Frame size mismatch: got " ++ toString ([] : List Nat).length
          ++ " bytes, expected " ++ toString (expectedFrameSize ⟨1, 2, 1, 1⟩)) ∧
    (send_frame_rgba ⟨none, 0⟩ (some ⟨1, 2, 1, 1⟩) []).written = [] ∧
    (send_frame_rgba ⟨none, 0⟩ (some ⟨1, 2, 1, 1⟩) []).store = some ⟨1, 2, 1, 1⟩ ∧
    (send_frame_rgba ⟨none, 0⟩
        (send_frame_rgba ⟨none, 0⟩ (some ⟨1, 2, 1, 1⟩) []).store [9, 9, 9, 9]).result
      = Except.ok ()) :=
  ⟨by decide, by decide, rfl,
   send_size_mismatch ⟨1, 2, 1, 1⟩ ⟨none, 0⟩ ⟨none, 0⟩ [] [9, 9, 9, 9]
     (by decide) (by decide) rfl⟩

/-- C3 counterexample: the claim "the accepted length is exactly
width × height × 4 as a mathematical product" fails. For a 65536 × 65536
session the u32 product wraps to 0, so `send` accepts the empty buffer even
though the mathematical product is 2^34 ≠ 0. -/
theorem send_accepts_wrapped_size :
    (send_frame_rgba ⟨none, 0⟩ (some ⟨1, 2, 65536, 65536⟩) []).result
      = Except.ok () ∧
    ([] : List Nat).length ≠ (65536 : Nat) * 65536 * 4 := by
  constructor
  · simp [send_frame_rgba, expectedFrameSize, u32Mod]
  · decide

/-- C3 (amended): the buffer length `send` accepts is width × height × 4
computed in u32 arithmetic, i.e. reduced modulo 2^32; it coincides with the
mathematical product exactly when that product is below 2^32, and otherwise
wraps around. -/
theorem send_accepts_u32_product (s : FfmpegSession) (env : WriteEnv)
    (data : List Nat) (henv : env.writeErr = none) :
    expectedFrameSize s = s.width * s.height * 4 % 2 ^ 32 ∧
    (s.width * s.height * 4 < 2 ^ 32 →
      expectedFrameSize s = s.width * s.height * 4) ∧
    ((send_frame_rgba env (some s) data).result = Except.ok ()
      ↔ data.length = expectedFrameSize s) := by
  have h1 : expectedFrameSize s = s.width * s.height * 4 % 2 ^ 32 := by
    simp only [expectedFrameSize, u32Mod]
    conv_rhs => rw [Nat.mul_mod]
    norm_num
  refine ⟨h1, fun hlt => by rw [h1]; exact Nat.mod_eq_of_lt hlt, ?_⟩
  constructor
  · intro hok
    by_contra hlen
    simp only [send_frame_rgba] at hok
    rw [if_pos hlen] at hok
    exact Except.noConfusion hok
  · intro hlen
    simp only [send_frame_rgba]
    rw [if_neg (not_not_intro hlen), henv]

/-- C3 (amended) witness: a 2×3 session expects exactly 24 bytes, and a
24-byte buffer is accepted. -/
theorem send_accepts_u32_product_witness :
    (⟨none, 0⟩ : WriteEnv).writeErr = none ∧
    (expectedFrameSize ⟨1, 2, 2, 3⟩ = 2 * 3 * 4 % 2 ^ 32 ∧
    (2 * 3 * 4 < 2 ^ 32 → expectedFrameSize ⟨1, 2, 2, 3⟩ = 2 * 3 * 4) ∧
    ((send_frame_rgba ⟨none, 0⟩ (some ⟨1, 2, 2, 3⟩) (List.replicate 24 0)).result
        = Except.ok ()
      ↔ (List.replicate 24 0).length = expectedFrameSize ⟨1, 2, 2, 3⟩)) :=
  ⟨rfl, send_accepts_u32_product ⟨1, 2, 2, 3⟩ ⟨none, 0⟩ (List.replicate 24 0) rfl⟩

/-- C4 counterexample: `start` performs no positivity check, so the claim
"start only installs a session when called with width > 0 and height > 0"
fails: with width = 0 and height = 0 (and working download, spawn and
stdin), `start` succeeds and installs a session of zero geometry. -/
theorem start_installs_zero_geometry :
    (start_ffmpeg_encode ⟨none, Except.ok 1, some 2⟩ none "out.mp4" 0 0 30
        "h264").result = Except.ok () ∧
    (start_ffmpeg_encode ⟨none, Except.ok 1, some 2⟩ none "out.mp4" 0 0 30
        "h264").store = some ⟨1, 2, 0, 0⟩ :=
  ⟨rfl, rfl⟩

/-- C4 (amended): every session `start` installs carries exactly the width
and height `start` was called with, and those fields never change for the
life of the session (`send` leaves the session untouched on every path);
`start` does not, however, validate positivity, so zero geometry can be
installed. -/
theorem installed_geometry_fixed (env : StartEnv) (wenv : WriteEnv)
    (p c : String) (w h f : Nat) (data : List Nat) (s : FfmpegSession)
    (hs : (start_ffmpeg_encode env none p w h f c).store = some s) :
    s.width = w ∧ s.height = h ∧
    (send_frame_rgba wenv (some s) data).store = some s := by
  obtain ⟨dl, sp, si⟩ := env
  cases dl with
  | some e => exact Option.noConfusion hs
  | none =>
    cases sp with
    | error e => exact Option.noConfusion hs
    | ok child =>
      cases si with
      | none => exact Option.noConfusion hs
      | some stdin =>
        obtain rfl : s = ⟨child, stdin, w, h⟩ := (Option.some_injective _ hs.symm)
        exact ⟨rfl, rfl, send_some_store wenv _ data⟩

/-- C4 (amended) witness: a concrete start installing a 5×7 session whose
geometry `send` leaves untouched. -/
theorem installed_geometry_fixed_witness :
    (start_ffmpeg_encode ⟨none, Except.ok 1, some 2⟩ none "out.mp4" 5 7 30
        "h264").store = some ⟨1, 2, 5, 7⟩ ∧
    ((⟨1, 2, 5, 7⟩ : FfmpegSession).width = 5 ∧
    (⟨1, 2, 5, 7⟩ : FfmpegSession).height = 7 ∧
    (send_frame_rgba ⟨none, 0⟩ (some ⟨1, 2, 5, 7⟩) []).store
      = some ⟨1, 2, 5, 7⟩) :=
  ⟨rfl, installed_geometry_fixed ⟨none, Except.ok 1, some 2⟩ ⟨none, 0⟩
      "out.mp4" "h264" 5 7 30 [] ⟨1, 2, 5, 7⟩ rfl⟩

/-- C6: every codec selector other than "prores" and "ffv1" — "h264" itself
and any unrecognized value — selects exactly the h264 argument list
(libx264, preset slow, crf 18, yuv420p), and `start` behaves identically to
`start` with "h264": same result, same store, same spawn arguments. -/
theorem fallback_codec_is_h264 (codec : String)
    (hp : codec ≠ "prores") (hf : codec ≠ "ffv1")
    (env : StartEnv) (store : FfmpegStore) (p : String) (w h f : Nat) :
    codecArgs codec
      = ["-c:v", "libx264", "-preset", "slow", "-crf", "18",
         "-pix_fmt", "yuv420p"] ∧
    start_ffmpeg_encode env store p w h f codec
      = start_ffmpeg_encode env store p w h f "h264" := by
  have hc : codecArgs codec
      = ["-c:v", "libx264", "-preset", "slow", "-crf", "18",
         "-pix_fmt", "yuv420p"] := by
    unfold codecArgs
    split
    · exact absurd rfl hp
    · exact absurd rfl hf
    · rfl
  have hb : buildArgs p w h f codec = buildArgs p w h f "h264" := by
    unfold buildArgs
    rw [hc]
    rfl
  refine ⟨hc, ?_⟩
  obtain ⟨dl, sp, si⟩ := env
  cases store with
  | some s => rfl
  | none =>
    cases dl with
    | some e => rfl
    | none =>
      cases sp with
      | error e => simp [start_ffmpeg_encode, hb]
      | ok child =>
        cases si with
        | none => simp [start_ffmpeg_encode, hb]
        | some stdin => simp [start_ffmpeg_encode, hb]

/-- C6 witness: the selector "unknownvalue" behaves exactly like "h264". -/
theorem fallback_codec_is_h264_witness :
    ("unknownvalue" : String) ≠ "prores" ∧
    ("unknownvalue" : String) ≠ "ffv1" ∧
    (codecArgs "unknownvalue"
      = ["-c:v", "libx264", "-preset", "slow", "-crf", "18",
         "-pix_fmt", "yuv420p"] ∧
    start_ffmpeg_encode ⟨none, Except.ok 1, some 2⟩ none "out.mp4" 64 64 30
        "unknownvalue"
      = start_ffmpeg_encode ⟨none, Except.ok 1, some 2⟩ none "out.mp4" 64 64 30
        "h264") :=
  ⟨by decide, by decide,
   fallback_codec_is_h264 "unknownvalue" (by decide) (by decide)
     ⟨none, Except.ok 1, some 2⟩ none "out.mp4" 64 64 30⟩

/-- C7: on every successful `start`, the spawn argument vector is, in
order: the overwrite flag, the raw-input declaration (raw format and
vcodec, rgba pixel format, size widthxheight, the given rate, input read
from pipe 0), the selected codec profile's arguments, the faststart
metadata flag, and the destination path as the final argument. -/
theorem start_spawn_args (env : StartEnv) (p c : String) (w h f : Nat)
    (hok : (start_ffmpeg_encode env none p w h f c).result = Except.ok ()) :
    (start_ffmpeg_encode env none p w h f c).spawned
      = some (["-y",
               "-f", "rawvideo",
               "-vcodec", "rawvideo",
               "-pix_fmt", "rgba",
               "-s", toString w ++ "x" ++ toString h,
               "-r", toString f,
               "-i", "pipe:0"]
              ++ codecArgs c ++ ["-movflags", "+faststart"] ++ [p]) := by
  obtain ⟨dl, sp, si⟩ := env
  cases dl with
  | some e => exact Except.noConfusion hok
  | none =>
    cases sp with
    | error e => exact Except.noConfusion hok
    | ok child =>
      cases si with
      | none => exact Except.noConfusion hok
      | some stdin => rfl

/-- C7 witness: the argument vector of a concrete successful start. -/
theorem start_spawn_args_witness :
    (start_ffmpeg_encode ⟨none, Except.ok 1, some 2⟩ none "out.mp4" 64 64 30
        "h264").result = Except.ok () ∧
    (start_ffmpeg_encode ⟨none, Except.ok 1, some 2⟩ none "out.mp4" 64 64 30
        "h264").spawned
      = some (["-y",
               "-f", "rawvideo",
               "-vcodec", "rawvideo",
               "-pix_fmt", "rgba",
               "-s", toString (64 : Nat) ++ "x" ++ toString (64 : Nat),
               "-r", toString (30 : Nat),
               "-i", "pipe:0"]
              ++ codecArgs "h264" ++ ["-movflags", "+faststart"]
              ++ ["out.mp4"]) :=
  ⟨rfl, start_spawn_args ⟨none, Except.ok 1, some 2⟩ "out.mp4" "h264"
      64 64 30 rfl⟩

/-- C10: whenever `start` fails — download error, spawn failure, or missing
stdin handle — no session is installed: the store stays empty, and a
subsequent `start` with working download, spawn and stdin succeeds. -/
theorem failed_start_leaves_idle (env : StartEnv) (p c : String)
    (w h f child pipe : Nat) (e : String)
    (hfail : (start_ffmpeg_encode env none p w h f c).result = Except.error e) :
    (start_ffmpeg_encode env none p w h f c).store = none ∧
    (start_ffmpeg_encode ⟨none, Except.ok child, some pipe⟩
        (start_ffmpeg_encode env none p w h f c).store p w h f c).result
      = Except.ok () := by
  have hst : (start_ffmpeg_encode env none p w h f c).store = none := by
    obtain ⟨dl, sp, si⟩ := env
    cases dl with
    | some e2 => rfl
    | none =>
      cases sp with
      | error e2 => rfl
      | ok child2 =>
        cases si with
        | none => rfl
        | some stdin2 => exact Except.noConfusion hfail
  refine ⟨hst, ?_⟩
  rw [hst]
  rfl

/-- C10 witness: a start that fails because the binary download fails
leaves the store empty and a retry with a working environment succeeds. -/
theorem failed_start_leaves_idle_witness :
    (start_ffmpeg_encode ⟨some "network down", Except.ok 1, some 2⟩ none
        "out.mp4" 64 64 30 "h264").result = Except.error "network down" ∧
    ((start_ffmpeg_encode ⟨some "network down", Except.ok 1, some 2⟩ none
        "out.mp4" 64 64 30 "h264").store = none ∧
    (start_ffmpeg_encode ⟨none, Except.ok 3, some 4⟩
        (start_ffmpeg_encode ⟨some "network down", Except.ok 1, some 2⟩ none
          "out.mp4" 64 64 30 "h264").store "out.mp4" 64 64 30 "h264").result
      = Except.ok ()) :=
  ⟨rfl, failed_start_leaves_idle ⟨some "network down", Except.ok 1, some 2⟩
      "out.mp4" "h264" 64 64 30 3 4 "network down" rfl⟩

end ShaderStudio
